import Mathlib

/-
Verification of the SmartNotes backend (src/backend/server.py) against its
specification. The document store (MongoDB collections users, recordings,
sessions) is modelled as lists of typed documents in insertion order;
find_one / update_one / delete_one act on the first matching document.
Timestamps (datetime.utcnow) are seconds as Nat; currency floats are Rat.
Each endpoint is a pure function of the store, the bearer token, the current
time and the freshly generated identifiers (uuid4 is nondeterministic, so
generated ids are parameters). Raising HTTPException aborts the handler and
leaves all writes performed so far in place, so a mutating endpoint returns
the store after the call together with the Except outcome.
-/

namespace SmartNotes

/-- HTTPException(status_code, detail). -/
structure HttpError where
  status_code : Nat
  detail : String
deriving DecidableEq, Repr

/-- The User pydantic model. -/
structure User where
  id : String
  email : String
  name : String
  picture : Option String := none
  subscription_status : String := "trial"
  referral_code : String
  discount_amount : Rat := 0
  preferred_language : String := "en"
  created_at : Nat := 0
deriving DecidableEq, Repr

/-- The Recording pydantic model. -/
structure Recording where
  id : String
  user_id : String
  title : String
  audio_data : String
  transcript : Option String := none
  summary : Option String := none
  tags : List String := []
  notes : String := ""
  duration : Option Rat := none
  status : String := "uploaded"
  created_at : Nat := 0
deriving DecidableEq, Repr

/-- The Session pydantic model. -/
structure Session where
  id : String
  user_id : String
  session_token : String
  expires_at : Nat
  created_at : Nat := 0
deriving DecidableEq, Repr

/-- The RecordingCreate request model. -/
structure RecordingCreate where
  title : String
  audio_data : String
  tags : List String := []
  notes : String := ""
  duration : Option Rat := none
deriving DecidableEq, Repr

/-- The TranscriptionRequest request model, after pydantic has filled the
field defaults (type defaults to "full", language defaults to "en"). -/
structure TranscriptionRequest where
  recording_id : String
  type : String := "full"
  language : String := "en"
deriving DecidableEq, Repr

/-- A TranscriptionRequest JSON body on the wire, before pydantic parsing:
type and language may be omitted. -/
structure TranscriptionBody where
  recording_id : String
  type : Option String := none
  language : Option String := none
deriving DecidableEq, Repr

/-- Pydantic parsing of a TranscriptionRequest body: an omitted field takes
the declared default, so an omitted language becomes the string "en". -/
def parseTranscriptionRequest (b : TranscriptionBody) : TranscriptionRequest :=
  { recording_id := b.recording_id
    type := b.type.getD "full"
    language := b.language.getD "en" }

/-- The ProcessingResponse response model. -/
structure ProcessingResponse where
  message : String
  recording_id : String
  status : String
deriving DecidableEq, Repr

/-- The three Mongo collections, as documents in insertion order. -/
structure Store where
  users : List User
  recordings : List Recording
  sessions : List Session
deriving DecidableEq, Repr

/-- db.collection.find_one(filter): the first document matching the filter. -/
def findOne (p : α → Bool) (docs : List α) : Option α :=
  docs.find? p

/-- db.collection.update_one(filter, set): applies the update to the first
matching document, leaving every other document in place. -/
def updateOne (p : α → Bool) (f : α → α) : List α → List α
  | [] => []
  | d :: ds => if p d then f d :: ds else d :: updateOne p f ds

/-- db.collection.delete_one(filter): removes the first matching document and
reports deleted_count (0 or 1). -/
def deleteOne (p : α → Bool) : List α → List α × Nat
  | [] => ([], 0)
  | d :: ds =>
    if p d then (ds, 1)
    else
      let r := deleteOne p ds
      (d :: r.1, r.2)

/-- get_current_user: resolves the bearer token to a session (first match),
rejects it when expired (expires_at < now), then loads the user. -/
def get_current_user (s : Store) (token : String) (now : Nat) :
    Except HttpError User :=
  match findOne (fun ss => ss.session_token == token) s.sessions with
  | none => .error ⟨401, "Invalid session token"⟩
  | some sess =>
    if sess.expires_at < now then .error ⟨401, "Session expired"⟩
    else
      match findOne (fun u => u.id == sess.user_id) s.users with
      | none => .error ⟨401, "User not found"⟩
      | some u => .ok u

/-- The per-language record of template texts inside process_audio_with_ai. -/
structure ModeContent where
  full : String
  summary : String
  chapters : String
deriving DecidableEq, Repr

/-- language_content["en"]. The source stores fixed multi-paragraph lecture
texts for each (language, mode) pair; no control flow inspects their
characters, so each template is embedded as a distinct marker string standing
for the corresponding literal. -/
def content_en : ModeContent :=
  ⟨"en full transcript template", "en summary template", "en chapters template"⟩

/-- The language_content table of process_audio_with_ai: five supported
language codes, each mapped to its three template texts. -/
def language_content : List (String × ModeContent) :=
  [ ("en", content_en)
  , ("it", ⟨"it full transcript template", "it summary template", "it chapters template"⟩)
  , ("es", ⟨"es full transcript template", "es summary template", "es chapters template"⟩)
  , ("fr", ⟨"fr full transcript template", "fr summary template", "fr chapters template"⟩)
  , ("de", ⟨"de full transcript template", "de summary template", "de chapters template"⟩) ]

/-- language_content.get(language, language_content["en"]): the content for
the requested language, defaulting to the English content. -/
def contentFor (language : String) : ModeContent :=
  match findOne (fun kv => kv.1 == language) language_content with
  | some kv => kv.2
  | none => content_en

/-- process_audio_with_ai(recording_id, audio_data, processing_type, language),
the background task. generationRaises models an exception escaping the content
generation inside the try block; the except handler then performs the single
update setting status := "failed". Otherwise the selected mode writes its
template (full to transcript, summary and chapters to summary) together with
status := "completed" in one update; an unrecognised processing_type falls
through the if/elif chain and performs no update at all. -/
def process_audio_with_ai (s : Store) (recording_id : String)
    (audio_data : String) (processing_type : String) (language : String)
    (generationRaises : Bool) : Store :=
  if generationRaises then
    let l := updateOne (fun r => r.id == recording_id)
      (fun r => { r with status := "failed" }) s.recordings
    { s with recordings := l }
  else
    let content := contentFor language
    if processing_type == "full" then
      let l := updateOne (fun r => r.id == recording_id)
        (fun r => { r with transcript := some content.full, status := "completed" })
        s.recordings
      { s with recordings := l }
    else if processing_type == "summary" then
      let l := updateOne (fun r => r.id == recording_id)
        (fun r => { r with summary := some content.summary, status := "completed" })
        s.recordings
      { s with recordings := l }
    else if processing_type == "chapters" then
      let l := updateOne (fun r => r.id == recording_id)
        (fun r => { r with summary := some content.chapters, status := "completed" })
        s.recordings
      { s with recordings := l }
    else s

/-- The user_data dictionary returned by GET /auth/profile. -/
structure ProfileData where
  id : String
  email : String
  name : String
  picture : String
  session_token : String
deriving DecidableEq, Repr

/-- GET /auth/profile: requires the X-Session-ID header, builds the demo
user_data, inserts a new demo user unless one with the demo email exists,
and unconditionally inserts a fresh 7-day session bearing the supplied
session id as its token. new_user_id, new_referral and new_session_id are
the identifiers uuid4 would generate. -/
def get_profile (s : Store) (x_session_id : Option String) (now : Nat)
    (new_user_id : String) (new_referral : String) (new_session_id : String) :
    Store × Except HttpError ProfileData :=
  match x_session_id with
  | none => (s, .error ⟨401, "Session ID required"⟩)
  | some sid =>
    let user_data : ProfileData :=
      { id := new_user_id, email := "demo@smartnotes.com", name := "Demo User"
        picture := "https://via.placeholder.com/150", session_token := sid }
    let step :=
      match findOne (fun u => u.email == user_data.email) s.users with
      | none =>
        let u : User :=
          { id := user_data.id, email := user_data.email, name := user_data.name
            picture := some user_data.picture, subscription_status := "trial"
            referral_code := new_referral, discount_amount := 0
            preferred_language := "en", created_at := now }
        ({ s with users := s.users ++ [u] }, u)
      | some u => (s, u)
    let sess : Session :=
      { id := new_session_id, user_id := step.2.id, session_token := sid
        expires_at := now + 7 * 86400, created_at := now }
    ({ step.1 with sessions := step.1.sessions ++ [sess] }, .ok user_data)

/-- POST /recordings: authenticates, builds the Recording with the caller as
owner and status "uploaded" (transcript and summary keep their pydantic
default None), inserts it and returns it. new_id is the uuid4 identifier. -/
def create_recording (s : Store) (token : String) (now : Nat)
    (recording_data : RecordingCreate) (new_id : String) :
    Store × Except HttpError Recording :=
  match get_current_user s token now with
  | .error e => (s, .error e)
  | .ok current_user =>
    let recording : Recording :=
      { id := new_id, user_id := current_user.id, title := recording_data.title
        audio_data := recording_data.audio_data, transcript := none, summary := none
        tags := recording_data.tags, notes := recording_data.notes
        duration := recording_data.duration, status := "uploaded", created_at := now }
    ({ s with recordings := s.recordings ++ [recording] }, .ok recording)

/-- GET /recordings/(recording_id): authenticates, then looks the recording
up by id and owner; 404 when no owned recording with that id exists. -/
def get_recording (s : Store) (token : String) (now : Nat)
    (recording_id : String) : Except HttpError Recording :=
  match get_current_user s token now with
  | .error e => .error e
  | .ok current_user =>
    match findOne (fun r => r.id == recording_id && r.user_id == current_user.id)
        s.recordings with
    | none => .error ⟨404, "Recording not found"⟩
    | some r => .ok r

/-- The arguments of the asyncio.create_task dispatch of process_audio_with_ai
performed by POST /recordings/(recording_id)/process. -/
structure ProcessDispatch where
  recording_id : String
  audio_data : String
  processing_type : String
  language : String
deriving DecidableEq, Repr

/-- POST /recordings/(recording_id)/process: authenticates, 404 unless the
caller owns a recording with that id, sets its status to "processing"
(update filtered by id only), chooses the language (the request language when
it is a non-empty string, the stored preferred language otherwise) and
dispatches the background task, returning immediately. -/
def process_recording (s : Store) (token : String) (now : Nat)
    (recording_id : String) (request : TranscriptionRequest) :
    Store × Except HttpError (ProcessDispatch × ProcessingResponse) :=
  match get_current_user s token now with
  | .error e => (s, .error e)
  | .ok current_user =>
    match findOne (fun r => r.id == recording_id && r.user_id == current_user.id)
        s.recordings with
    | none => (s, .error ⟨404, "Recording not found"⟩)
    | some recording =>
      let l := updateOne (fun r => r.id == recording_id)
        (fun r => { r with status := "processing" }) s.recordings
      let s1 : Store := { s with recordings := l }
      let language :=
        if request.language == "" then current_user.preferred_language
        else request.language
      (s1, .ok
        ( { recording_id := recording_id, audio_data := recording.audio_data
            processing_type := request.type, language := language }
        , { message := "Processing started for " ++ request.type ++
              " transcription in " ++ language
            recording_id := recording_id, status := "processing" } ))

/-- DELETE /recordings/(recording_id): authenticates, deletes the first
recording matching id and owner, then 404 when deleted_count is 0. -/
def delete_recording (s : Store) (token : String) (now : Nat)
    (recording_id : String) : Store × Except HttpError String :=
  match get_current_user s token now with
  | .error e => (s, .error e)
  | .ok current_user =>
    let result := deleteOne
      (fun r => r.id == recording_id && r.user_id == current_user.id) s.recordings
    let s1 : Store := { s with recordings := result.1 }
    if result.2 == 0 then (s1, .error ⟨404, "Recording not found"⟩)
    else (s1, .ok "Recording deleted successfully")

/-- A value of the arbitrary JSON map accepted by PUT /recordings/(id):
title and notes hold strings and tags holds a list of strings, as the
Recording model declares; any other JSON value is carried opaquely. -/
inductive FieldValue where
  | str : String → FieldValue
  | strList : List String → FieldValue
  | other : String → FieldValue
deriving DecidableEq, Repr

/-- The allow-list of PUT /recordings/(id). -/
def allowed_fields : List String := ["title", "tags", "notes"]

/-- Mongo $set of the filtered update_fields map on a recording document,
for the well-typed values the Recording schema admits. -/
def applySet (r : Recording) : List (String × FieldValue) → Recording
  | [] => r
  | kv :: fs =>
    applySet
      (match kv with
        | ("title", .str v) => { r with title := v }
        | ("tags", .strList v) => { r with tags := v }
        | ("notes", .str v) => { r with notes := v }
        | _ => r) fs

/-- PUT /recordings/(recording_id): authenticates, 404 unless the caller owns
a recording with that id, filters the payload down to the allowed fields,
and applies them in one update (filtered by id only) unless none remain. -/
def update_recording (s : Store) (token : String) (now : Nat)
    (recording_id : String) (update_data : List (String × FieldValue)) :
    Store × Except HttpError String :=
  match get_current_user s token now with
  | .error e => (s, .error e)
  | .ok current_user =>
    match findOne (fun r => r.id == recording_id && r.user_id == current_user.id)
        s.recordings with
    | none => (s, .error ⟨404, "Recording not found"⟩)
    | some _ =>
      let update_fields :=
        update_data.filter (fun kv => allowed_fields.contains kv.1)
      let l := updateOne (fun r => r.id == recording_id)
        (fun r => applySet r update_fields) s.recordings
      let s1 : Store := if update_fields.isEmpty then s else { s with recordings := l }
      (s1, .ok "Recording updated successfully")

/-- The supported_languages list of PUT /user/language. -/
def supported_languages : List String := ["en", "it", "es", "fr", "de"]

/-- PUT /user/language: authenticates, reads language_data.get("language",
"en"), rejects an unsupported code with 400 before any write, and otherwise
updates the preferred language of the caller. -/
def update_user_language (s : Store) (token : String) (now : Nat)
    (language_data : Option String) : Store × Except HttpError String :=
  match get_current_user s token now with
  | .error e => (s, .error e)
  | .ok current_user =>
    let new_language := language_data.getD "en"
    if !(supported_languages.contains new_language) then
      (s, .error ⟨400, "Unsupported language"⟩)
    else
      let l := updateOne (fun u => u.id == current_user.id)
        (fun u => { u with preferred_language := new_language }) s.users
      ({ s with users := l }, .ok ("Language updated to " ++ new_language))

/-- The response of GET /user/referral. -/
structure ReferralInfo where
  referral_code : String
  discount_amount : Rat
  monthly_cost : Rat
deriving DecidableEq, Repr

/-- GET /user/referral: returns the referral code, the discount and
monthly_cost = max(2.0 - discount_amount, 1.0). -/
def get_referral_info (s : Store) (token : String) (now : Nat) :
    Except HttpError ReferralInfo :=
  match get_current_user s token now with
  | .error e => .error e
  | .ok current_user =>
    .ok { referral_code := current_user.referral_code
          discount_amount := current_user.discount_amount
          monthly_cost := max (2 - current_user.discount_amount) 1 }

/-- Number of sessions in the store bearing the given token that are active
at time now; get_current_user treats a session as expired exactly when
expires_at < now. -/
def activeSessionCount (s : Store) (token : String) (now : Nat) : Nat :=
  (s.sessions.filter
    (fun ss => ss.session_token == token && !(ss.expires_at < now))).length

/-- Fixture: a user whose stored preferred language is Italian. -/
def userA : User :=
  { id := "uA", email := "a@example.com", name := "Alice"
    referral_code := "refA", preferred_language := "it" }

/-- Fixture: a second user, with a referral discount of half a unit. -/
def userB : User :=
  { id := "uB", email := "b@example.com", name := "Bob"
    referral_code := "refB", discount_amount := 1/2 }

/-- Fixture: a live session of userA with bearer token tokA. -/
def sessA : Session :=
  { id := "sA", user_id := "uA", session_token := "tokA", expires_at := 1000 }

/-- Fixture: a live session of userB with bearer token tokB. -/
def sessB : Session :=
  { id := "sB", user_id := "uB", session_token := "tokB", expires_at := 1000 }

/-- Fixture: a recording owned by userA. -/
def recA : Recording :=
  { id := "rA", user_id := "uA", title := "Lecture A", audio_data := "AAA" }

/-- Fixture: a recording owned by userB. -/
def recB : Recording :=
  { id := "rB", user_id := "uB", title := "Lecture B", audio_data := "BBB" }

/-- Fixture: a store holding both users, their sessions and one recording
each. -/
def store0 : Store :=
  { users := [userA, userB], recordings := [recA, recB]
    sessions := [sessA, sessB] }

/-- Fixture: recording rA mid-processing, with earlier transcript and
summary content present. -/
def recP : Recording :=
  { recA with status := "processing", transcript := some "T0", summary := some "S0" }

/-- Fixture: store0 with recA replaced by its mid-processing version. -/
def storeP : Store :=
  { users := [userA, userB], recordings := [recP, recB]
    sessions := [sessA, sessB] }

/-- Fixture: the demo user inserted by the first profile-bootstrap call
(new user id u1, referral code ref1, at time 0). -/
def demoUser : User :=
  { id := "u1", email := "demo@smartnotes.com", name := "Demo User"
    picture := some "https://via.placeholder.com/150", referral_code := "ref1" }

/-- Fixture: the 7-day session inserted by the first profile-bootstrap call
at time 0 for session identifier sid1. -/
def demoSession1 : Session :=
  { id := "s1", user_id := "u1", session_token := "sid1", expires_at := 604800 }

/-- Fixture: the 7-day session inserted by the second profile-bootstrap call
at time 5 for the same session identifier sid1. -/
def demoSession2 : Session :=
  { id := "s2", user_id := "u1", session_token := "sid1"
    expires_at := 604805, created_at := 5 }

/-- delete_one deletes nothing and reports deleted_count 0 when no document
matches the filter. -/
theorem deleteOne_of_forall_false {p : α → Bool} {l : List α}
    (h : ∀ x ∈ l, p x = false) : deleteOne p l = (l, 0) := by
  induction l with
  | nil => rfl
  | cons d ds ih =>
    have hd := h d (List.mem_cons_self d ds)
    have hds : ∀ x ∈ ds, p x = false := fun x hx => h x (List.mem_cons_of_mem d hx)
    simp [deleteOne, hd, ih hds]

/-- find_one returns nothing when no document matches the filter. -/
theorem findOne_eq_none {p : α → Bool} {l : List α}
    (h : ∀ x ∈ l, p x = false) : findOne p l = none := by
  rw [findOne, List.find?_eq_none]
  intro x hx
  simp [h x hx]

/-- When the update preserves the filter, find_one after update_one returns
the updated version of the document find_one returned before. -/
theorem findOne_updateOne (p : α → Bool) (f : α → α) (l : List α)
    (hp : ∀ x, p (f x) = p x) :
    findOne p (updateOne p f l) = (findOne p l).map f := by
  induction l with
  | nil => rfl
  | cons d ds ih =>
    by_cases hd : p d = true
    · simp [findOne, updateOne, List.find?, hd, hp d]
    · have hd' : p d = false := by
        cases h : p d
        · rfl
        · exact absurd h hd
      simpa [findOne, updateOne, List.find?, hd', hp d] using ih

/-- Every document in the list produced by update_one is either an original
document or the update of an original document. -/
theorem mem_updateOne {p : α → Bool} {f : α → α} {l : List α} {x : α}
    (hx : x ∈ updateOne p f l) : x ∈ l ∨ ∃ y, y ∈ l ∧ x = f y := by
  induction l with
  | nil => simp [updateOne] at hx
  | cons d ds ih =>
    by_cases hd : p d = true
    · simp only [updateOne, if_pos hd, List.mem_cons] at hx
      rcases hx with h | h
      · exact Or.inr ⟨d, List.mem_cons_self d ds, h⟩
      · exact Or.inl (List.mem_cons_of_mem d h)
    · simp only [updateOne, if_neg hd, List.mem_cons] at hx
      rcases hx with h | h
      · exact Or.inl (by simp [h])
      · rcases ih h with h1 | ⟨y, hy, hxy⟩
        · exact Or.inl (List.mem_cons_of_mem d h1)
        · exact Or.inr ⟨y, List.mem_cons_of_mem d hy, hxy⟩

/-- Applying a $set of title/tags/notes values leaves every other field of
the recording unchanged. -/
theorem applySet_frame (fs : List (String × FieldValue)) (r : Recording) :
    (applySet r fs).id = r.id ∧ (applySet r fs).user_id = r.user_id
    ∧ (applySet r fs).audio_data = r.audio_data
    ∧ (applySet r fs).transcript = r.transcript
    ∧ (applySet r fs).summary = r.summary
    ∧ (applySet r fs).duration = r.duration
    ∧ (applySet r fs).status = r.status
    ∧ (applySet r fs).created_at = r.created_at := by
  induction fs generalizing r with
  | nil => simp [applySet]
  | cons kv fs ih =>
    simp only [applySet]
    split <;> exact ih _

/-- C4: a successful background generation run writes, in one single update,
the looked-up full text to transcript for mode full, and the looked-up
summary or chapters text to summary for the other two modes, setting status
"completed" in the same update; a language outside the mapping selects the
default English content. -/
theorem C4_mode_dispatch_and_fallback (s : Store) (rid audio lang : String)
    (r : Recording)
    (hr : findOne (fun x => x.id == rid) s.recordings = some r) :
    findOne (fun x => x.id == rid)
        (process_audio_with_ai s rid audio "full" lang false).recordings
      = some { r with transcript := some (contentFor lang).full, status := "completed" }
    ∧ findOne (fun x => x.id == rid)
        (process_audio_with_ai s rid audio "summary" lang false).recordings
      = some { r with summary := some (contentFor lang).summary, status := "completed" }
    ∧ findOne (fun x => x.id == rid)
        (process_audio_with_ai s rid audio "chapters" lang false).recordings
      = some { r with summary := some (contentFor lang).chapters, status := "completed" }
    ∧ (findOne (fun kv => kv.1 == lang) language_content = none →
        contentFor lang = content_en) := by
  refine ⟨?_, ?_, ?_, ?_⟩
  · show findOne (fun x => x.id == rid) (updateOne (fun x => x.id == rid) (fun x => { x with transcript := some (contentFor lang).full, status := "completed" }) s.recordings) = some { r with transcript := some (contentFor lang).full, status := "completed" }
    rw [findOne_updateOne (fun x => x.id == rid) (fun x => { x with transcript := some (contentFor lang).full, status := "completed" }) s.recordings (fun x => rfl), hr]
    rfl
  · show findOne (fun x => x.id == rid) (updateOne (fun x => x.id == rid) (fun x => { x with summary := some (contentFor lang).summary, status := "completed" }) s.recordings) = some { r with summary := some (contentFor lang).summary, status := "completed" }
    rw [findOne_updateOne (fun x => x.id == rid) (fun x => { x with summary := some (contentFor lang).summary, status := "completed" }) s.recordings (fun x => rfl), hr]
    rfl
  · show findOne (fun x => x.id == rid) (updateOne (fun x => x.id == rid) (fun x => { x with summary := some (contentFor lang).chapters, status := "completed" }) s.recordings) = some { r with summary := some (contentFor lang).chapters, status := "completed" }
    rw [findOne_updateOne (fun x => x.id == rid) (fun x => { x with summary := some (contentFor lang).chapters, status := "completed" }) s.recordings (fun x => rfl), hr]
    rfl
  · intro hnone
    simp [contentFor, hnone]

/-- Witness for C4 at the unsupported language code "xx". -/
theorem C4_witness :
    findOne (fun x => x.id == "rA") store0.recordings = some recA
    ∧ findOne (fun x => x.id == "rA")
        (process_audio_with_ai store0 "rA" "AAA" "full" "xx" false).recordings
      = some { recA with transcript := some (contentFor "xx").full, status := "completed" }
    ∧ (findOne (fun kv => kv.1 == "xx") language_content = none →
        contentFor "xx" = content_en) :=
  ⟨rfl, (C4_mode_dispatch_and_fallback store0 "rA" "AAA" "xx" recA rfl).1,
   (C4_mode_dispatch_and_fallback store0 "rA" "AAA" "xx" recA rfl).2.2.2⟩

/-- C6: when content generation raises, the run performs exactly one update,
replacing the recording by itself with only status changed to "failed"
(transcript, summary and every other field keep their previous values), and
every other stored recording is untouched. -/
theorem C6_failure_sets_status_only (s : Store) (rid audio ptype lang : String)
    (r : Recording)
    (hr : findOne (fun x => x.id == rid) s.recordings = some r) :
    findOne (fun x => x.id == rid)
        (process_audio_with_ai s rid audio ptype lang true).recordings
      = some { r with status := "failed" }
    ∧ ∀ x ∈ (process_audio_with_ai s rid audio ptype lang true).recordings,
        x ∈ s.recordings
        ∨ ∃ y, y ∈ s.recordings ∧ x = { y with status := "failed" } := by
  constructor
  · show findOne (fun x => x.id == rid) (updateOne (fun x => x.id == rid) (fun x => { x with status := "failed" }) s.recordings) = some { r with status := "failed" }
    rw [findOne_updateOne (fun x => x.id == rid) (fun x => { x with status := "failed" }) s.recordings (fun x => rfl), hr]
    rfl
  · intro x hx
    have hx2 : x ∈ updateOne (fun y => y.id == rid) (fun y => { y with status := "failed" }) s.recordings := hx
    exact mem_updateOne hx2

/-- Witness for C6: a failing run on a processing recording with existing
content keeps transcript T0 and summary S0 and only flips status. -/
theorem C6_witness :
    findOne (fun x => x.id == "rA") storeP.recordings = some recP
    ∧ findOne (fun x => x.id == "rA")
        (process_audio_with_ai storeP "rA" "AAA" "full" "en" true).recordings
      = some { recP with status := "failed" }
    ∧ ({ recP with status := "failed" }).transcript = some "T0"
    ∧ ({ recP with status := "failed" }).summary = some "S0" :=
  ⟨rfl,
   (C6_failure_sets_status_only storeP "rA" "AAA" "full" "en" recP rfl).1,
   by decide, by decide⟩

/-- C1 counterexample: userA stores preferred language "it", yet a process
request whose body omits the language field dispatches background generation
with language "en", not the stored preferred language. -/
theorem C1_counterexample :
    (process_recording store0 "tokA" 10 "rA"
        (parseTranscriptionRequest { recording_id := "rA" })).2
      = .ok
        ( { recording_id := "rA", audio_data := "AAA"
            processing_type := "full", language := "en" }
        , { message := "Processing started for full transcription in en"
            recording_id := "rA", status := "processing" } )
    ∧ userA.preferred_language = "it"
    ∧ ("en" : String) ≠ userA.preferred_language :=
  ⟨rfl, rfl, by decide⟩

/-- C1 amended: the language used for background generation is the parsed
request language, whose pydantic default is "en" when the body omits the
field; the stored preferred language of the caller is used only when the
body supplies an explicitly empty language string. -/
theorem C1_amended_language_default (s : Store) (token : String) (now : Nat)
    (rid : String) (b : TranscriptionBody) (u : User) (st : Store)
    (d : ProcessDispatch) (resp : ProcessingResponse)
    (hu : get_current_user s token now = .ok u)
    (h : process_recording s token now rid (parseTranscriptionRequest b)
        = (st, .ok (d, resp))) :
    (b.language = none → d.language = "en")
    ∧ (b.language = some "" → d.language = u.preferred_language)
    ∧ (∀ l : String, b.language = some l → l ≠ "" → d.language = l) := by
  simp only [process_recording, hu, parseTranscriptionRequest] at h
  cases hfind : findOne (fun r => r.id == rid && r.user_id == u.id) s.recordings with
  | none =>
    rw [hfind] at h
    simp at h
  | some rec =>
    rw [hfind] at h
    simp only [Prod.mk.injEq, Except.ok.injEq] at h
    obtain ⟨-, hd, -⟩ := h
    refine ⟨?_, ?_, ?_⟩
    · intro hb
      rw [← hd]
      simp [hb]
    · intro hb
      rw [← hd]
      simp [hb]
    · intro l hb hne
      rw [← hd]
      simp [hb, hne]

/-- Witness for C1: the concrete omitted-language request of the
counterexample, run through the amended theorem. -/
theorem C1_amended_witness :
    get_current_user store0 "tokA" 10 = .ok userA
    ∧ TranscriptionBody.language { recording_id := "rA" } = none
    ∧ ProcessDispatch.language
        { recording_id := "rA", audio_data := "AAA"
          processing_type := "full", language := "en" } = "en" :=
  ⟨rfl, rfl,
   (C1_amended_language_default store0 "tokA" 10 "rA" { recording_id := "rA" }
      userA
      { store0 with recordings := [{ recA with status := "processing" }, recB] }
      { recording_id := "rA", audio_data := "AAA"
        processing_type := "full", language := "en" }
      { message := "Processing started for full transcription in en"
        recording_id := "rA", status := "processing" }
      rfl rfl).1 rfl⟩

/-- C2 counterexample: two profile-bootstrap calls with the same session
identifier sid1 each insert a session bearing token sid1, so afterwards the
token matches two active sessions, not at most one. -/
theorem C2_counterexample :
    get_profile (Store.mk [] [] []) (some "sid1") 0 "u1" "ref1" "s1"
      = (Store.mk [demoUser] [] [demoSession1],
         .ok ⟨"u1", "demo@smartnotes.com", "Demo User",
              "https://via.placeholder.com/150", "sid1"⟩)
    ∧ get_profile (Store.mk [demoUser] [] [demoSession1]) (some "sid1") 5
        "u2" "ref2" "s2"
      = (Store.mk [demoUser] [] [demoSession1, demoSession2],
         .ok ⟨"u2", "demo@smartnotes.com", "Demo User",
              "https://via.placeholder.com/150", "sid1"⟩)
    ∧ activeSessionCount
        (Store.mk [demoUser] [] [demoSession1, demoSession2]) "sid1" 5 = 2
    ∧ ¬ activeSessionCount
        (Store.mk [demoUser] [] [demoSession1, demoSession2]) "sid1" 5 ≤ 1 :=
  ⟨rfl, rfl, rfl, by decide⟩

/-- C2 amended: every successful profile-bootstrap call inserts one fresh
7-day session whose token is the supplied session identifier, so each call
increases the number of active sessions matching that token by one; a bearer
token therefore need not match exactly one active session. -/
theorem C2_amended_session_growth (s : Store) (sid : String) (now : Nat)
    (new_user_id new_referral new_session_id : String) :
    activeSessionCount
        (get_profile s (some sid) now new_user_id new_referral new_session_id).1
        sid now
      = activeSessionCount s sid now + 1 := by
  have hlive : ¬ (now + 7 * 86400 < now) :=
    Nat.not_lt.mpr (Nat.le_add_right now (7 * 86400))
  cases hf : findOne (fun u => u.email == "demo@smartnotes.com") s.users with
  | none =>
    simp [get_profile, hf, activeSessionCount, List.filter_append, hlive]
  | some u =>
    simp [get_profile, hf, activeSessionCount, List.filter_append, hlive]

/-- C5: a background generation call whose processing type is not one of
full, summary or chapters falls through the if/elif chain without raising
and performs no store update, so the recording keeps the "processing" status
set by the endpoint forever: the run never marks it completed or failed. -/
theorem C5_unknown_mode_no_update (s : Store) (rid audio ptype lang : String)
    (h : ptype ∉ (["full", "summary", "chapters"] : List String)) :
    process_audio_with_ai s rid audio ptype lang false = s := by
  simp only [List.mem_cons, List.not_mem_nil, or_false, not_or] at h
  obtain ⟨h1, h2, h3⟩ := h
  simp [process_audio_with_ai, h1, h2, h3]

/-- Witness for C5 at the concrete processing type "transcribe". -/
theorem C5_witness :
    ("transcribe" ∉ (["full", "summary", "chapters"] : List String))
    ∧ process_audio_with_ai store0 "rA" "AAA" "transcribe" "en" false = store0 :=
  ⟨by decide,
   C5_unknown_mode_no_update store0 "rA" "AAA" "transcribe" "en" (by decide)⟩

/-- C8: every recording created through POST /recordings is stored with
status "uploaded", absent transcript and summary, and the authenticated
caller as its owner; it is appended to the recordings collection. -/
theorem C8_create_initial_state (s : Store) (token : String) (now : Nat)
    (rdata : RecordingCreate) (new_id : String) (u : User) (st : Store)
    (rec : Recording)
    (hu : get_current_user s token now = .ok u)
    (h : create_recording s token now rdata new_id = (st, .ok rec)) :
    rec.status = "uploaded" ∧ rec.transcript = none ∧ rec.summary = none
    ∧ rec.user_id = u.id ∧ st.recordings = s.recordings ++ [rec] := by
  simp only [create_recording, hu, Prod.mk.injEq, Except.ok.injEq] at h
  obtain ⟨hst, hrec⟩ := h
  subst hrec
  subst hst
  simp

/-- Witness for C8: userA creates a recording in store0. -/
theorem C8_witness :
    get_current_user store0 "tokA" 10 = .ok userA
    ∧ (Recording.mk "rNew" "uA" "T" "ZZZ" none none [] "" none "uploaded" 10).status
        = "uploaded"
    ∧ (Recording.mk "rNew" "uA" "T" "ZZZ" none none [] "" none "uploaded" 10).transcript
        = none
    ∧ (Recording.mk "rNew" "uA" "T" "ZZZ" none none [] "" none "uploaded" 10).summary
        = none
    ∧ (Recording.mk "rNew" "uA" "T" "ZZZ" none none [] "" none "uploaded" 10).user_id
        = userA.id := by
  have h := C8_create_initial_state store0 "tokA" 10
    { title := "T", audio_data := "ZZZ" } "rNew" userA
    { store0 with recordings :=
        store0.recordings ++ [Recording.mk "rNew" "uA" "T" "ZZZ" none none [] "" none "uploaded" 10] }
    (Recording.mk "rNew" "uA" "T" "ZZZ" none none [] "" none "uploaded" 10)
    rfl rfl
  exact ⟨rfl, h.1, h.2.1, h.2.2.1, h.2.2.2.1⟩

/-- C9: PUT /user/language with a supplied language code fails (with 400,
detail Unsupported language) exactly when the code is outside the supported
set, and on failure the store, in particular the stored preferred language,
is unchanged. -/
theorem C9_language_validation (s : Store) (token : String) (now : Nat)
    (l : String) (u : User)
    (hu : get_current_user s token now = .ok u) :
    ((update_user_language s token now (some l)).2
        = .error ⟨400, "Unsupported language"⟩ ↔ l ∉ supported_languages)
    ∧ (l ∉ supported_languages →
        (update_user_language s token now (some l)).1 = s) := by
  simp only [update_user_language, hu, Option.getD_some]
  by_cases hmem : l ∈ supported_languages
  · have hc : supported_languages.contains l = true := List.elem_iff.mpr hmem
    simp [hc, hmem]
  · have hc : supported_languages.contains l = false := by
      simpa using hmem
    simp [hc, hmem]

/-- Witness for C9 at the unsupported code "xx". -/
theorem C9_witness :
    get_current_user store0 "tokA" 10 = .ok userA
    ∧ ("xx" ∉ supported_languages)
    ∧ (update_user_language store0 "tokA" 10 (some "xx")).1 = store0 :=
  ⟨rfl, by decide,
   (C9_language_validation store0 "tokA" 10 "xx" userA rfl).2 (by decide)⟩

/-- C10: GET /user/referral returns monthly_cost = max(2 - discount, 1); a
discount of one half yields three halves and a discount of 5 hits the floor
of 1. -/
theorem C10_referral_cost (s : Store) (token : String) (now : Nat) (u : User)
    (hu : get_current_user s token now = .ok u) :
    get_referral_info s token now
      = .ok ⟨u.referral_code, u.discount_amount, max (2 - u.discount_amount) 1⟩
    ∧ (u.discount_amount = 1/2 → max (2 - u.discount_amount) (1 : ℚ) = 3/2)
    ∧ (u.discount_amount = 5 → max (2 - u.discount_amount) (1 : ℚ) = 1) := by
  refine ⟨?_, ?_, ?_⟩
  · simp [get_referral_info, hu]
  · intro hd
    rw [hd]
    norm_num
  · intro hd
    rw [hd]
    norm_num

/-- Witness for C10: userB has discount one half, so the cost is three
halves. -/
theorem C10_witness :
    get_current_user store0 "tokB" 10 = .ok userB
    ∧ get_referral_info store0 "tokB" 10
        = .ok ⟨userB.referral_code, userB.discount_amount,
               max (2 - userB.discount_amount) 1⟩
    ∧ max (2 - userB.discount_amount) (1 : ℚ) = 3/2 :=
  ⟨rfl, (C10_referral_cost store0 "tokB" 10 userB rfl).1,
   (C10_referral_cost store0 "tokB" 10 userB rfl).2.1 rfl⟩

/-- C3: a caller authenticated as user a cannot GET, PUT, DELETE or PROCESS
a recording owned by another user: each endpoint answers 404 Recording not
found, the same error an entirely nonexistent id produces, and the store is
left unchanged. -/
theorem C3_cross_owner_isolation (s : Store) (token : String) (now : Nat)
    (rid bId : String) (a : User)
    (payload : List (String × FieldValue)) (req : TranscriptionRequest)
    (hu : get_current_user s token now = .ok a)
    (hne : a.id ≠ bId)
    (_hB : ∃ r ∈ s.recordings, r.id = rid ∧ r.user_id = bId)
    (hOnly : ∀ r ∈ s.recordings, r.id = rid → r.user_id = bId) :
    get_recording s token now rid = .error ⟨404, "Recording not found"⟩
    ∧ update_recording s token now rid payload
        = (s, .error ⟨404, "Recording not found"⟩)
    ∧ delete_recording s token now rid
        = (s, .error ⟨404, "Recording not found"⟩)
    ∧ process_recording s token now rid req
        = (s, .error ⟨404, "Recording not found"⟩) := by
  have hfalse : ∀ r ∈ s.recordings, (r.id == rid && r.user_id == a.id) = false := by
    intro r hr
    cases hid : (r.id == rid) with
    | false => simp [hid]
    | true =>
      have hb : r.user_id = bId := hOnly r hr (by simpa using hid)
      have ha : (r.user_id == a.id) = false := by
        rw [hb]
        exact beq_eq_false_iff_ne.mpr (fun e => hne e.symm)
      simp [hid, ha]
  have hnone : findOne (fun r => r.id == rid && r.user_id == a.id) s.recordings
      = none := findOne_eq_none hfalse
  have hdel : deleteOne (fun r => r.id == rid && r.user_id == a.id) s.recordings
      = (s.recordings, 0) := deleteOne_of_forall_false hfalse
  refine ⟨?_, ?_, ?_, ?_⟩
  · simp [get_recording, hu, hnone]
  · simp [update_recording, hu, hnone]
  · simp [delete_recording, hu, hdel]
  · simp [process_recording, hu, hnone]

/-- Witness for C3: userA (token tokA) attacks recording rB owned by userB. -/
theorem C3_witness :
    get_current_user store0 "tokA" 10 = .ok userA
    ∧ userA.id ≠ "uB"
    ∧ (∃ r ∈ store0.recordings, r.id = "rB" ∧ r.user_id = "uB")
    ∧ get_recording store0 "tokA" 10 "rB" = .error ⟨404, "Recording not found"⟩
    ∧ delete_recording store0 "tokA" 10 "rB"
        = (store0, .error ⟨404, "Recording not found"⟩) := by
  have h := C3_cross_owner_isolation store0 "tokA" 10 "rB" "uB" userA
    [("title", FieldValue.str "X")] { recording_id := "rB" }
    rfl (by decide) (by decide) (by decide)
  exact ⟨rfl, by decide, by decide, h.1, h.2.2.1⟩

/-- C7: PUT /recordings/(id) on an owned recording accepts any payload,
silently dropping keys outside the title/tags/notes allow-list: the call is
identical to the call on the pre-filtered payload, it succeeds with the ack
message, users and sessions are untouched, every stored recording still
agrees with a previously stored recording on every field outside the
allow-list, a payload with no allowed key leaves the store unchanged, and
the targeted recording becomes exactly the old first-matching record with
the filtered payload applied. -/
theorem C7_update_allowlist (s : Store) (token : String) (now : Nat)
    (rid : String) (payload : List (String × FieldValue)) (st : Store)
    (msg : String)
    (h : update_recording s token now rid payload = (st, .ok msg)) :
    update_recording s token now rid payload
      = update_recording s token now rid
          (payload.filter (fun kv => allowed_fields.contains kv.1))
    ∧ msg = "Recording updated successfully"
    ∧ st.users = s.users ∧ st.sessions = s.sessions
    ∧ (∀ x ∈ st.recordings, ∃ y, y ∈ s.recordings ∧ x.id = y.id
        ∧ x.user_id = y.user_id ∧ x.audio_data = y.audio_data
        ∧ x.transcript = y.transcript ∧ x.summary = y.summary
        ∧ x.duration = y.duration ∧ x.status = y.status
        ∧ x.created_at = y.created_at)
    ∧ ((payload.filter (fun kv => allowed_fields.contains kv.1)).isEmpty = true
        → st = s)
    ∧ (∀ r0, findOne (fun x => x.id == rid) s.recordings = some r0 →
        findOne (fun x => x.id == rid) st.recordings
          = some (applySet r0 (payload.filter (fun kv => allowed_fields.contains kv.1)))) := by
  cases hauth : get_current_user s token now with
  | error e =>
    simp only [update_recording, hauth] at h
    simp at h
  | ok u =>
    simp only [update_recording, hauth] at h
    cases hfind : findOne (fun r => r.id == rid && r.user_id == u.id) s.recordings with
    | none =>
      rw [hfind] at h
      simp at h
    | some r =>
      rw [hfind] at h
      simp only [Prod.mk.injEq, Except.ok.injEq] at h
      obtain ⟨hst, hmsg⟩ := h
      have hfilter : (payload.filter (fun kv => allowed_fields.contains kv.1)).filter
          (fun kv => allowed_fields.contains kv.1)
          = payload.filter (fun kv => allowed_fields.contains kv.1) := by
        rw [List.filter_filter]
        simp
      refine ⟨?_, hmsg.symm, ?_, ?_, ?_, ?_, ?_⟩
      · simp only [update_recording, hauth, hfind, hfilter]
      · rw [← hst]
        by_cases hemp : (payload.filter (fun kv => allowed_fields.contains kv.1)).isEmpty = true
        · rw [if_pos hemp]
        · rw [if_neg hemp]
      · rw [← hst]
        by_cases hemp : (payload.filter (fun kv => allowed_fields.contains kv.1)).isEmpty = true
        · rw [if_pos hemp]
        · rw [if_neg hemp]
      · intro x hx
        rw [← hst] at hx
        by_cases hemp : (payload.filter (fun kv => allowed_fields.contains kv.1)).isEmpty
        · rw [if_pos hemp] at hx
          exact ⟨x, hx, rfl, rfl, rfl, rfl, rfl, rfl, rfl, rfl⟩
        · rw [if_neg hemp] at hx
          have hx2 : x ∈ updateOne (fun y => y.id == rid)
              (fun y => applySet y (payload.filter (fun kv => allowed_fields.contains kv.1)))
              s.recordings := hx
          rcases mem_updateOne hx2 with hmem | ⟨y, hy, hxy⟩
          · exact ⟨x, hmem, rfl, rfl, rfl, rfl, rfl, rfl, rfl, rfl⟩
          · obtain ⟨e1, e2, e3, e4, e5, e6, e7, e8⟩ :=
              applySet_frame (payload.filter (fun kv => allowed_fields.contains kv.1)) y
            subst hxy
            exact ⟨y, hy, e1, e2, e3, e4, e5, e6, e7, e8⟩
      · intro hemp
        rw [← hst, if_pos hemp]
      · intro r0 hr0
        rw [← hst]
        by_cases hemp : (payload.filter (fun kv => allowed_fields.contains kv.1)).isEmpty
        · rw [if_pos hemp]
          rw [List.isEmpty_iff] at hemp
          rw [hemp, hr0]
          rfl
        · rw [if_neg hemp]
          have e : (({ s with recordings := updateOne (fun x => x.id == rid) (fun x => applySet x (payload.filter (fun kv => allowed_fields.contains kv.1))) s.recordings } : Store)).recordings = updateOne (fun x => x.id == rid) (fun x => applySet x (payload.filter (fun kv => allowed_fields.contains kv.1))) s.recordings := rfl
          rw [e]
          have hp : ∀ x : Recording,
              ((applySet x (payload.filter (fun kv => allowed_fields.contains kv.1))).id == rid)
                = (x.id == rid) := by
            intro x
            rw [(applySet_frame (payload.filter (fun kv => allowed_fields.contains kv.1)) x).1]
          rw [findOne_updateOne (fun x => x.id == rid)
            (fun x => applySet x (payload.filter (fun kv => allowed_fields.contains kv.1)))
            s.recordings hp, hr0]
          rfl

/-- Witness for C7: a payload carrying a junk status key and a title update
changes only the title. -/
theorem C7_witness :
    update_recording store0 "tokA" 10 "rA"
        [("status", FieldValue.str "hacked"), ("title", FieldValue.str "New title")]
      = ({ store0 with recordings := [{ recA with title := "New title" }, recB] },
         .ok "Recording updated successfully")
    ∧ update_recording store0 "tokA" 10 "rA"
        [("status", FieldValue.str "hacked"), ("title", FieldValue.str "New title")]
      = update_recording store0 "tokA" 10 "rA"
          ([("status", FieldValue.str "hacked"), ("title", FieldValue.str "New title")].filter
            (fun kv => allowed_fields.contains kv.1)) :=
  ⟨rfl,
   (C7_update_allowlist store0 "tokA" 10 "rA"
      [("status", FieldValue.str "hacked"), ("title", FieldValue.str "New title")]
      { store0 with recordings := [{ recA with title := "New title" }, recB] }
      "Recording updated successfully" rfl).1⟩

end SmartNotes
